import Mathlib

/-!
Shallow embedding of `pyxlsb/writer.py` (the BIFF12 record writer) and proofs
about it.

Conventions of the embedding:
* A byte sink is modelled by the list of bytes written to it, in order; each
  write operation returns the byte list it appends to the sink.
* Python integers are `Nat` (the claims only concern non-negative values);
  bitwise operations are translated arithmetically: `x & 0xFF` is `x % 256`,
  `x & 0x7F` is `x % 128`, `x >> k` is `x / 2 ^ k`, and the test
  `x & 0x80 == 0` (bit 7 clear) is `x / 128 % 2 == 0`, which is valid for
  every natural `x`.
* Fallible operations return `Except WError _`; `WError` enumerates the
  Python exceptions that can escape the modelled code paths.
* `uint8_t` / `uint16_t` / `uint32_t` / `double_t` come from the reader
  module, which is not part of the sources; they are modelled from the spec
  (fixed little-endian widths, §4.1/§6), with Python's `struct` range error
  for out-of-range values.
-/

/-- Errors of the modelled Python code: `structError` is `struct.error`
(value out of range for the fixed-width pack), `nameError` is a `NameError`
(an unbound module-level name). -/
inductive WError where
  | structError
  | nameError
deriving DecidableEq, Repr

/-- Modelled from the spec: `uint8_t.pack` (reader module, absent from the
sources). §4.1/§6: an 8-bit value is written as that single byte;
`struct` raises for values outside `0 ≤ v < 2^8`. -/
def uint8pack (v : Nat) : Except WError (List Nat) :=
  if v < 256 then .ok [v] else .error .structError

/-- Modelled from the spec: `uint16_t.pack` (reader module, absent from the
sources). §4.1/§6: 16-bit little-endian, low byte first; `struct` raises for
values outside `0 ≤ v < 2^16`. -/
def uint16pack (v : Nat) : Except WError (List Nat) :=
  if v < 65536 then .ok [v % 256, v / 256 % 256] else .error .structError

/-- The four little-endian bytes of the 32-bit value `v` (low byte first). -/
def uint32bytes (v : Nat) : List Nat :=
  [v % 256, v / 256 % 256, v / 65536 % 256, v / 16777216 % 256]

/-- Modelled from the spec: `uint32_t.pack` (reader module, absent from the
sources). §4.1/§6: 32-bit little-endian; `struct` raises for values outside
`0 ≤ v < 2^32`. -/
def uint32pack (v : Nat) : Except WError (List Nat) :=
  if v < 4294967296 then .ok (uint32bytes v) else .error .structError

/-- `RecordWriter.write_len` (writer.py lines 104–111), loop body for
iteration `i` with the remaining iterations as fuel.  Each iteration
computes `nearlybyte = (val >> 7*i) & 0x7F`, writes it, and breaks when
`nearlybyte & 0x80 == 0`.  The continuation test `& 0x80 == 0` is embedded
as `/ 128 % 2 == 0` (bit 7), with no simplification: the tested value is
the already-masked `nearlybyte`, exactly as in the source. -/
def writeLenGo (val : Nat) : Nat → Nat → List Nat
  | _, 0 => []
  | i, fuel + 1 =>
    let nearlybyte := val / 2 ^ (7 * i) % 128
    nearlybyte ::
      (if nearlybyte / 128 % 2 = 0 then [] else writeLenGo val (i + 1) fuel)

/-- `RecordWriter.write_len(val)`: the length codec, `for i in range(4)`
with the early break of lines 110–111. -/
def write_len (val : Nat) : List Nat :=
  writeLenGo val 0 4

/-- `BIFF12Writer.write_id` (writer.py lines 176–184), loop body: byte `i`
is `(val >> 8*i) & 0xFF`; the loop breaks after writing a byte whose bit 7
is clear (`byte & 0x80 == 0`), and runs at most 4 iterations. -/
def writeIdGo (val : Nat) : Nat → Nat → List Nat
  | _, 0 => []
  | i, fuel + 1 =>
    let byte := val / 2 ^ (8 * i) % 256
    byte :: (if byte / 128 % 2 = 0 then [] else writeIdGo val (i + 1) fuel)

/-- `BIFF12Writer.write_id(val)`: the tag codec. -/
def write_id (val : Nat) : List Nat :=
  writeIdGo val 0 4

/-- `BIFF12Writer.write_bytes(bytes_data)` (writer.py lines 189–193): write
the length via the length codec, then the raw bytes, where the raw write is
guarded by `if len(bytes_data):`. -/
def write_bytes (data : List Nat) : List Nat :=
  write_len data.length ++ (if data.length = 0 then [] else data)

-- Helper lemmas about the byte-level codecs.

theorem writeLen_eq_low7 (val : Nat) : write_len val = [val % 128] := by
  have h0 : val % 128 / 128 = 0 :=
    Nat.div_eq_of_lt (Nat.mod_lt _ (by norm_num))
  simp [write_len, writeLenGo, h0]

/-- `writeIdGo` emits byte `(val >> 8*(i+j)) & 0xFF` at offset `j`. -/
theorem writeIdGo_getD (val : Nat) :
    ∀ (fuel i j : Nat), j < (writeIdGo val i fuel).length →
      (writeIdGo val i fuel).getD j 0 = val / 2 ^ (8 * (i + j)) % 256 := by
  intro fuel
  induction fuel with
  | zero => intro i j h; simp [writeIdGo] at h
  | succ n ih =>
    intro i j h
    simp only [writeIdGo] at h ⊢
    cases j with
    | zero => simp
    | succ j' =>
      by_cases hc : val / 2 ^ (8 * i) % 256 / 128 % 2 = 0
      · simp [if_pos hc] at h
      · rw [if_neg hc] at h ⊢
        simp only [List.length_cons, List.getD_cons_succ] at h ⊢
        rw [ih (i + 1) j' (by omega)]
        have he : i + 1 + j' = i + (j' + 1) := by omega
        rw [he]

theorem writeIdGo_length_le (val : Nat) :
    ∀ (fuel i : Nat), (writeIdGo val i fuel).length ≤ fuel := by
  intro fuel
  induction fuel with
  | zero => intro i; simp [writeIdGo]
  | succ n ih =>
    intro i
    simp only [writeIdGo]
    by_cases hc : val / 2 ^ (8 * i) % 256 / 128 % 2 = 0
    · simp [if_pos hc]
    · rw [if_neg hc]
      simp only [List.length_cons]
      exact Nat.succ_le_succ (ih (i + 1))

/-- Every byte of `writeIdGo` other than the last has its high bit set:
the loop only continues past a byte when `byte & 0x80 != 0`. -/
theorem writeIdGo_continuation (val : Nat) :
    ∀ (fuel i j : Nat), j + 1 < (writeIdGo val i fuel).length →
      128 ≤ (writeIdGo val i fuel).getD j 0 := by
  intro fuel
  induction fuel with
  | zero => intro i j h; simp [writeIdGo] at h
  | succ n ih =>
    intro i j h
    simp only [writeIdGo] at h ⊢
    by_cases hc : val / 2 ^ (8 * i) % 256 / 128 % 2 = 0
    · simp [if_pos hc] at h
    · rw [if_neg hc] at h ⊢
      simp only [List.length_cons] at h ⊢
      cases j with
      | zero =>
        simp only [List.getD_cons_zero]
        have hlt : val / 2 ^ (8 * i) % 256 < 256 := Nat.mod_lt _ (by norm_num)
        omega
      | succ j' =>
        simp only [List.getD_cons_succ]
        exact ih (i + 1) j' (by omega)

/-- The UTF-16 code units of one Unicode scalar value: code points below
`0x10000` are one unit; others become a surrogate pair. -/
def utf16Units (c : Nat) : List Nat :=
  if c < 65536 then [c]
  else [55296 + (c - 65536) / 1024, 56320 + (c - 65536) % 1024]

/-- The two little-endian bytes of one 16-bit code unit. -/
def unitBytes (u : Nat) : List Nat :=
  [u % 256, u / 256 % 256]

/-- `str_data.encode('utf-16', errors='replace')` on a little-endian host:
the byte-order mark `FF FE` followed by the UTF-16LE bytes of the text.
Text is a list of Unicode scalar values (`Char`), matching Python `str`
content on the encodable range; `errors='replace'` only affects lone
surrogates, which `Char` cannot hold. -/
def pyEncodeUtf16 (s : List Char) : List Nat :=
  255 :: 254 :: (s.map fun c => (utf16Units c.toNat).map unitBytes |>.flatten).flatten

/-- `data.lstrip(b'\xff\xfe')`: Python's `lstrip` with a byte set removes
every leading byte that is `0xFF` or `0xFE`, not only a two-byte prefix. -/
def lstripFFFE : List Nat → List Nat
  | [] => []
  | b :: bs => if b = 255 ∨ b = 254 then lstripFFFE bs else b :: bs

/-- A value passed to `write_string` / `write_obj_str`: a Python `str`
(list of scalar values), an `int` (a resolved shared-string index), or any
other object, represented by its `str(obj)` text. -/
inductive PyObj where
  | strVal (s : List Char)
  | intVal (n : Nat)
  | objVal (strRepr : List Char)
deriving DecidableEq

/-- `RecordWriter.write_int(val, do_write_len)` (writer.py lines 43–47):
`payload = uint32_t.pack(val)` (raising `struct.error` when out of range),
then optionally `write_len(len(payload))`, then the payload. -/
def write_int (val : Nat) (doWriteLen : Bool) : Except WError (List Nat) :=
  match uint32pack val with
  | .error e => .error e
  | .ok payload => .ok ((if doWriteLen then write_len payload.length else []) ++ payload)

/-- `RecordWriter.write_short(val, do_write_len)` (writer.py lines 49–53). -/
def write_short (val : Nat) (doWriteLen : Bool) : Except WError (List Nat) :=
  match uint16pack val with
  | .error e => .error e
  | .ok payload => .ok ((if doWriteLen then write_len payload.length else []) ++ payload)

/-- `RecordWriter.write_byte(val, do_write_len)` (writer.py lines 55–59). -/
def write_byte (val : Nat) (doWriteLen : Bool) : Except WError (List Nat) :=
  match uint8pack val with
  | .error e => .error e
  | .ok payload => .ok ((if doWriteLen then write_len payload.length else []) ++ payload)

/-- `RecordWriter.write_float(val, do_write_len)` (writer.py lines 61–77):
its first statement is `payload = struct.Struct('<f').pack(val)`, but the
module `writer.py` never imports `struct` (its imports are `biff12`, names
from `reader`, `os`, and optionally `numpy`), so evaluating the name
`struct` raises `NameError` before `val` or `do_write_len` is used.  The
value argument is therefore never inspected and is left polymorphic. -/
def write_float {α : Type} (_val : α) (_doWriteLen : Bool) : Except WError (List Nat) :=
  .error .nameError

/-- `RecordWriter.write_string(str_data)` (writer.py lines 85–94):
for a `str`, encode with `'utf-16'` + `errors='replace'`, strip leading
`0xFF`/`0xFE` bytes via `lstrip`, take `size = len(data) // 2`, write the
size with `write_int(size, do_write_len=False)` and then the data.
For an `int`, `.encode` raises `AttributeError`, caught at line 92, and the
value is written with `write_int`.  For any other object, `.encode` also
raises `AttributeError` and the fallback `write_int` raises `struct.error`
because the object is not an integer. -/
def write_string : PyObj → Except WError (List Nat)
  | .strVal s =>
    let data := lstripFFFE (pyEncodeUtf16 s)
    let size := data.length / 2
    match write_int size false with
    | .error e => .error e
    | .ok sizeBytes => .ok (sizeBytes ++ data)
  | .intVal n => write_int n false
  | .objVal _ => .error .structError

/-- `RecordWriter.write_obj_str(obj)` (writer.py lines 96–102):
`assert not isinstance(obj, int)` — for an `int` the `AssertionError` is
caught and the value goes to `write_int`; otherwise `write_string(str(obj))`
runs, and `str(obj)` of a `str` is itself. -/
def write_obj_str : PyObj → Except WError (List Nat)
  | .intVal n => write_int n false
  | .strVal s => write_string (.strVal s)
  | .objVal r => write_string (.strVal r)

/-- Modelled from the spec: the record-tag constants of the `biff12` module
(absent from the sources).  The claims only need them as fixed, distinct
small integers (§3, §4.4), so the concrete values are immaterial. -/
def biff12NUM : Nat := 2

/-- Modelled from the spec: `biff12.BOOL` (see `biff12NUM`). -/
def biff12BOOL : Nat := 4

/-- Modelled from the spec: `biff12.FLOAT` (see `biff12NUM`). -/
def biff12FLOAT : Nat := 5

/-- Modelled from the spec: `biff12.STRING` (see `biff12NUM`). -/
def biff12STRING : Nat := 7

/-- The bound methods of `RecordWriter` that appear as the second component
of a dispatch entry; the dispatch claims treat them as opaque function
identities. -/
inductive Encoder where
  | wDouble
  | wByte
  | wString
  | wObjStr
  | wInt
  | wShort
  | wFloat
deriving DecidableEq, Repr

/-- A dispatch entry `(record_tag, encoder)`. -/
abbrev Entry : Type := Nat × Encoder

/-- The `isinstance` classification of a key object, for the four checks
made by `SemiflexibleHandlers.__missing__`.  In CPython a `bool` instance
is also an `int` instance; the model quantifies over all flag combinations,
a superset of the realizable ones, and preserves the branch order of the
source so the CPython cases are covered. -/
structure KeyClass where
  isInstInt : Bool
  isInstFloat : Bool
  isInstBool : Bool
  isInstStr : Bool
deriving DecidableEq, Repr

/-- A dictionary key: one of the four pre-registered type objects
(`int`, `float`, `bool`, `str`), or any other hashable object, carrying its
identity and its `isinstance` classification.  A type object is not itself
an instance of `int`/`float`/`bool`/`str`, so the four base keys classify
as all-false. -/
inductive PyKey where
  | intType
  | floatType
  | boolType
  | strType
  | otherKey (id : Nat) (cls : KeyClass)
deriving DecidableEq, Repr

/-- `isinstance(key, int)` for a key object. -/
def keyIsInt : PyKey → Bool
  | .otherKey _ c => c.isInstInt
  | _ => false

/-- `isinstance(key, float)` for a key object. -/
def keyIsFloat : PyKey → Bool
  | .otherKey _ c => c.isInstFloat
  | _ => false

/-- `isinstance(key, bool)` for a key object. -/
def keyIsBool : PyKey → Bool
  | .otherKey _ c => c.isInstBool
  | _ => false

/-- `isinstance(key, str)` for a key object. -/
def keyIsStr : PyKey → Bool
  | .otherKey _ c => c.isInstStr
  | _ => false

/-- The mutable state of a `SemiflexibleHandlers` instance, modelled as an
association list; `self[key] = value` conses a binding, which shadows any
older binding exactly as a `dict` assignment overwrites it. -/
def Handlers : Type := List (PyKey × Entry)

/-- Plain association-list lookup: a `dict` hit (no `__missing__` call). -/
def lookupEntry : Handlers → PyKey → Option Entry
  | [], _ => none
  | (k', v) :: t, k => if k' = k then some v else lookupEntry t k

/-- The fallback entry `(biff12.STRING, RecordWriter.write_obj_str)` of the
final `else` of `__missing__` (writer.py line 153). -/
def fallbackEntry : Entry := (biff12STRING, Encoder.wObjStr)

/-- `self[base]` inside `__missing__`, where `base` is one of the type
objects `int`, `float`, `bool`, `str`: a hit returns the stored entry; on a
miss, `__missing__(base)` runs recursively, and since a type object is an
instance of none of `int`/`float`/`bool`/`str`, it takes the final `else`,
caches and returns the fallback entry.  That recursion is depth-one, so it
is written out here. -/
def getBase (tbl : Handlers) (base : PyKey) : Entry × Handlers :=
  match lookupEntry tbl base with
  | some v => (v, tbl)
  | none => (fallbackEntry, (base, fallbackEntry) :: tbl)

/-- `SemiflexibleHandlers.__missing__(key)` (writer.py lines 139–155):
test `isinstance(key, int)`, then `float`, then `bool`, then `str`, in that
order; on a match, fetch `self[base]` and cache it under `key`; otherwise
cache and return the fallback entry.  Returns the entry and the updated
table (the cache mutation `self[key] = value`). -/
def missingFn (tbl : Handlers) (k : PyKey) : Entry × Handlers :=
  if keyIsInt k then
    let p := getBase tbl .intType
    (p.1, (k, p.1) :: p.2)
  else if keyIsFloat k then
    let p := getBase tbl .floatType
    (p.1, (k, p.1) :: p.2)
  else if keyIsBool k then
    let p := getBase tbl .boolType
    (p.1, (k, p.1) :: p.2)
  else if keyIsStr k then
    let p := getBase tbl .strType
    (p.1, (k, p.1) :: p.2)
  else
    (fallbackEntry, (k, fallbackEntry) :: tbl)

/-- `self[key]` on a `SemiflexibleHandlers`: a `dict` hit returns the stored
entry unchanged; a miss calls `__missing__`. -/
def getItem (tbl : Handlers) (k : PyKey) : Entry × Handlers :=
  match lookupEntry tbl k with
  | some v => (v, tbl)
  | none => missingFn tbl k

/-- The initial table of `SemiflexibleHandlers.__init__` (writer.py lines
117–123), without the optional numpy block (writer.py guards it behind
`np is not None`; the modelled configuration has no numpy).  The claims
settled here hold for either configuration: they do not depend on which
pre-registered bindings are present beyond the four base ones. -/
def initHandlers : Handlers :=
  [ (.intType, (biff12FLOAT, Encoder.wDouble)),
    (.floatType, (biff12FLOAT, Encoder.wDouble)),
    (.boolType, (biff12BOOL, Encoder.wByte)),
    (.strType, (biff12STRING, Encoder.wString)) ]

-- Helper lemmas about the dispatch table.

theorem lookupEntry_cons_self (t : Handlers) (k : PyKey) (v : Entry) :
    lookupEntry ((k, v) :: t) k = some v := by
  simp [lookupEntry]

/-- `__missing__` always caches the entry it returns under the exact key. -/
theorem missingFn_lookup (tbl : Handlers) (k : PyKey) :
    lookupEntry (missingFn tbl k).2 k = some (missingFn tbl k).1 := by
  unfold missingFn
  split_ifs <;> simp [lookupEntry]

/-!
The claims.
-/

/-- Claim C1: the claim says `RecordWriter.write_len` fails fast with a
LengthOverflow error when the value exceeds the representable range of the
length encoding.  The code has no overflow check and no error path at all:
`write_len` is total and, because each group is masked to 7 bits before the
continuation test `& 0x80 == 0`, it writes the single byte `val & 0x7F`,
silently truncating any value above `0x7F`.  At the failing input 128 it
writes the single byte `0x00`; at 255 it writes `0x7F`. -/
theorem write_len_truncates_without_error :
    write_len 128 = [0] ∧ write_len 255 = [127] ∧
    (write_len 128).length = 1 := by
  decide

/-- Claim C5: for every non-negative input, `RecordWriter.write_len` writes
exactly one byte, the value's low 7 bits `val & 0x7F`: the continuation
condition tests bit 7 of a byte already masked to 7 bits, so the loop never
reaches a second iteration. -/
theorem write_len_single_low7_byte (val : Nat) :
    write_len val = [val &&& 127] ∧ (write_len val).length = 1 := by
  have h127 : val &&& 127 = val % 128 := by
    simpa using Nat.and_pow_two_sub_one_eq_mod val 7
  rw [h127, writeLen_eq_low7]
  exact ⟨rfl, rfl⟩

/-- Claim C4: `BIFF12Writer.write_id` emits, at offset `i`, the byte
`(val >> 8*i) & 0xFF`, for at most 4 bytes, and continues past a byte only
when that byte's high bit `0x80` is set; `write_id 0 = [0x00]`,
`write_id 0x7F` is one byte, `write_id 0x80` is the two bytes
`[0x80, 0x00]` whose first byte has the top bit set, and
`write_id 0xFFFFFFFF` is exactly four bytes. -/
theorem write_id_tag_codec :
    (∀ val i, i < (write_id val).length →
      (write_id val).getD i 0 = val / 2 ^ (8 * i) % 256) ∧
    (∀ val, (write_id val).length ≤ 4) ∧
    (∀ val i, i + 1 < (write_id val).length → 128 ≤ (write_id val).getD i 0) ∧
    write_id 0 = [0] ∧
    (write_id 127).length = 1 ∧
    (write_id 128 = [128, 0] ∧ 128 ≤ (write_id 128).getD 0 0) ∧
    (write_id 4294967295).length = 4 := by
  refine ⟨?_, ?_, ?_, by decide, by decide, by decide, by decide⟩
  · intro val i h
    simp only [write_id] at h ⊢
    simpa using writeIdGo_getD val 4 0 i h
  · intro val
    simpa [write_id] using writeIdGo_length_le val 4 0
  · intro val i h
    simp only [write_id] at h ⊢
    exact writeIdGo_continuation val 4 0 i h

/-- Witness for C4 at the concrete tag 200 (`0xC8`): its first byte `0xC8`
has the high bit set, so the encoding is the two bytes `[200, 0]`. -/
theorem write_id_tag_codec_witness :
    (write_id 200).getD 1 0 = 200 / 2 ^ (8 * 1) % 256 ∧
    128 ≤ (write_id 200).getD 0 0 ∧
    (write_id 200).length ≤ 4 :=
  ⟨write_id_tag_codec.1 200 1 (by decide),
   write_id_tag_codec.2.2.1 200 0 (by decide),
   write_id_tag_codec.2.1 200⟩

/-- Claim C10: `BIFF12Writer.write_bytes` writes the byte count via the
length codec and then the raw bytes; when the input is empty the raw-write
step is skipped and the sink receives only the encoded length, the single
byte `0x00` — observationally, the output is always
`write_len (length) ++ data`. -/
theorem write_bytes_length_then_raw :
    (∀ data : List Nat, write_bytes data = write_len data.length ++ data) ∧
    write_bytes [] = write_len 0 ∧ write_bytes [] = [0] := by
  refine ⟨?_, by decide, by decide⟩
  intro data
  unfold write_bytes
  by_cases h : data.length = 0
  · rw [if_pos h, List.length_eq_zero.mp h]
  · rw [if_neg h]

/-- Claim C2: the claim says every text payload written by
`RecordWriter.write_string` has an even byte count and that only a leading
byte-order mark is stripped.  Counterexample at the one-character string
`"þ"` (U+00FE): the `utf-16` encoding is `FF FE FE 00`, and
`lstrip(b'\xff\xfe')` removes every leading byte equal to `0xFF` or `0xFE`
— the two BOM bytes and the `0xFE` of the character — leaving the single
odd byte `00`; the record becomes unit count 0 followed by the 1-byte
payload `00`. -/
theorem write_string_odd_payload :
    write_string (.strVal [Char.ofNat 254]) = .ok [0, 0, 0, 0, 0] ∧
    pyEncodeUtf16 [Char.ofNat 254] = [255, 254, 254, 0] ∧
    (lstripFFFE (pyEncodeUtf16 [Char.ofNat 254])).length = 1 :=
  ⟨rfl, rfl, rfl⟩

/-- Claim C3: the claim says `write_float` completes without raising for
every float on a working sink.  It cannot: its first statement evaluates
the name `struct`, which `writer.py` never imports, so every call raises
`NameError` before the value is even read — for any argument of any type
and either setting of `do_write_len`. -/
theorem write_float_raises_name_error :
    ∀ (α : Type) (v : α) (b : Bool),
      write_float v b = Except.error WError.nameError := by
  intro α v b
  rfl

/-- Claim C6: for every string, `RecordWriter.write_string` writes the unit
count `len(data) // 2` through the fixed-width 32-bit little-endian pack
(`write_int` with `do_write_len=False`, four bytes, not the one-byte
variable-length codec), immediately followed by the encoded payload bytes. -/
theorem write_string_fixed_width_count (s : List Char)
    (h : (lstripFFFE (pyEncodeUtf16 s)).length / 2 < 4294967296) :
    write_string (.strVal s) =
      .ok (uint32bytes ((lstripFFFE (pyEncodeUtf16 s)).length / 2) ++
        lstripFFFE (pyEncodeUtf16 s)) ∧
    (uint32bytes ((lstripFFFE (pyEncodeUtf16 s)).length / 2)).length = 4 := by
  refine ⟨?_, by simp [uint32bytes]⟩
  simp only [write_string, write_int, uint32pack]
  rw [if_pos h]
  simp

/-- Witness for C6 at the concrete string `"Hi"`: unit count 2, payload
`48 00 69 00`. -/
theorem write_string_fixed_width_count_witness :
    write_string (.strVal ['H', 'i']) =
      .ok (uint32bytes ((lstripFFFE (pyEncodeUtf16 ['H', 'i'])).length / 2) ++
        lstripFFFE (pyEncodeUtf16 ['H', 'i'])) ∧
    (uint32bytes ((lstripFFFE (pyEncodeUtf16 ['H', 'i'])).length / 2)).length = 4 :=
  write_string_fixed_width_count ['H', 'i'] (by decide)

/-- Claim C7: an integer (a resolved shared-string index) passed to
`RecordWriter.write_string` takes the `AttributeError` fallback, and passed
to `RecordWriter.write_obj_str` takes the `AssertionError` fallback; both
write only `write_int(val)` — the four fixed-width little-endian bytes of
the integer, with no unit-count prefix and no character encoding. -/
theorem int_passthrough_writes_only_int (n : Nat) (h : n < 4294967296) :
    write_string (.intVal n) = .ok (uint32bytes n) ∧
    write_obj_str (.intVal n) = .ok (uint32bytes n) ∧
    (uint32bytes n).length = 4 := by
  refine ⟨?_, ?_, by simp [uint32bytes]⟩ <;>
  · simp only [write_string, write_obj_str, write_int, uint32pack]
    rw [if_pos h]
    simp

/-- Witness for C7 at the concrete shared-string index 7: the sink receives
exactly `07 00 00 00`. -/
theorem int_passthrough_writes_only_int_witness :
    write_string (.intVal 7) = .ok (uint32bytes 7) ∧
    write_obj_str (.intVal 7) = .ok (uint32bytes 7) ∧
    (uint32bytes 7).length = 4 :=
  int_passthrough_writes_only_int 7 (by decide)

/-- Claim C8: on any table state and any key, looking the key up twice
returns the identical `(record_tag, encoder)` entry both times and the
second lookup leaves the table unchanged: a first miss caches the resolved
entry under the exact key (every branch of `__missing__` executes
`self[key] = value`), so the second lookup is a plain `dict` hit with no
reclassification. -/
theorem handlers_memoized (tbl : Handlers) (k : PyKey) :
    getItem (getItem tbl k).2 k = getItem tbl k := by
  unfold getItem
  cases h : lookupEntry tbl k with
  | some v => simp [h]
  | none =>
    simp only [h]
    rw [missingFn_lookup]

/-- Claim C9: dispatch resolution is total and unresolvable keys reach the
generic fallback: a key that is no registered type and classifies as none
of `int`, `float`, `bool`, `str` resolves to
`(biff12.STRING, RecordWriter.write_obj_str)` — the entry whose encoder
serializes the value through its text representation — and is cached under
that key; no branch of `__missing__` can raise. -/
theorem handlers_fallback_total (tbl : Handlers) (id : Nat) (cls : KeyClass)
    (h1 : cls.isInstInt = false) (h2 : cls.isInstFloat = false)
    (h3 : cls.isInstBool = false) (h4 : cls.isInstStr = false)
    (h5 : lookupEntry tbl (.otherKey id cls) = none) :
    getItem tbl (.otherKey id cls) =
      (fallbackEntry, (PyKey.otherKey id cls, fallbackEntry) :: tbl) ∧
    fallbackEntry = (biff12STRING, Encoder.wObjStr) := by
  unfold getItem
  rw [h5]
  unfold missingFn
  simp [keyIsInt, keyIsFloat, keyIsBool, keyIsStr, h1, h2, h3, h4]
  rfl

/-- Witness for C9: an unregistered, unclassifiable key resolves to the
fallback entry on the freshly initialized table. -/
theorem handlers_fallback_total_witness :
    getItem initHandlers (.otherKey 0 ⟨false, false, false, false⟩) =
      (fallbackEntry,
        (PyKey.otherKey 0 ⟨false, false, false, false⟩, fallbackEntry) ::
          initHandlers) ∧
    fallbackEntry = (biff12STRING, Encoder.wObjStr) :=
  handlers_fallback_total initHandlers 0 ⟨false, false, false, false⟩
    rfl rfl rfl rfl (by decide)
